import Mathlib

/-!
Shallow embedding of two fragments of the totem-tech/substrate excerpt:

* `frame/contracts/src/benchmarking.rs` — the `expanded_contract` /
  `compile_code` helpers of the contracts benchmarking harness;
* `client/cli/src/commands/insert.rs` — the `insert` subcommand that
  injects a signing key into a node keystore over JSON-RPC.

Pure Rust functions become Lean functions; the effects of `InsertCmd::run`
(reading inputs, issuing the RPC call, printing) are made explicit by
threading an environment record and collecting the issued requests and
stdout lines in the result.
-/

/-! ## Contracts benchmarking (`benchmarking.rs`) -/

/-- `CONTRACT_START` from `expanded_contract`: the exact contents of the
Rust raw string literal, whitespace included. -/
def CONTRACT_START : String :=
  "\n        (module\n            (func (export \"deploy\"))\n            (func (export \"call\")\n\n    "

/-- `CONTRACT_EXPANSION` from `expanded_contract`. -/
def CONTRACT_EXPANSION : String := "(block (nop))\n"

/-- `CONTRACT_END` from `expanded_contract`. -/
def CONTRACT_END : String := "))"

/-- Rust's half-open integer range `a .. b` as the list of iterated values:
`[a, a+1, ..., b-1]`, empty when `b ≤ a`. -/
def rustRange (a b : Nat) : List Nat :=
  (List.range b).drop a

/-- `s` repeated `k` times, concatenated. -/
def repeatString (s : String) : Nat → String
  | 0 => ""
  | k + 1 => s ++ repeatString s k

/-- `compile_code::<T>` from `benchmarking.rs`: compiles the wat source to a
binary and hashes it with `T::Hashing`.  The external `wat::parse_str`
compiler and the `T::Hashing` hash are type parameters of the embedding,
exactly as `compile_code` is generic over `T` in the source. -/
def compile_code {H : Type} (watParse : String → List Nat) (hashFn : List Nat → H)
    (code : String) : List Nat × H :=
  let binary := watParse code
  let hash := hashFn binary
  (binary, hash)

/-- The contract source string built by `expanded_contract::<T>`:
`CONTRACT_START`, then one `CONTRACT_EXPANSION` per iteration of the Rust
loop `for _ in 1 .. expansions`, then `CONTRACT_END`. -/
def expanded_contract_source (expansions : Nat) : String :=
  let contract := CONTRACT_START
  let contract := (rustRange 1 expansions).foldl (fun acc _ => acc ++ CONTRACT_EXPANSION) contract
  contract ++ CONTRACT_END

/-- `expanded_contract::<T>` from `benchmarking.rs`: builds the expanded
contract source and feeds it to `compile_code`. -/
def expanded_contract {H : Type} (watParse : String → List Nat) (hashFn : List Nat → H)
    (expansions : Nat) : List Nat × H :=
  compile_code watParse hashFn (expanded_contract_source expansions)

theorem rustRange_length (a b : Nat) : (rustRange a b).length = b - a := by
  simp [rustRange]

theorem foldl_append_repeat (E : String) :
    ∀ (l : List Nat) (S : String),
      l.foldl (fun acc _ => acc ++ E) S = S ++ repeatString E l.length := by
  intro l
  induction l with
  | nil => intro S; simp [repeatString]
  | cons x xs ih =>
    intro S
    simp only [List.foldl_cons, List.length_cons, ih]
    show (S ++ E) ++ repeatString E xs.length = S ++ repeatString E (xs.length + 1)
    have hassoc : (S ++ E) ++ repeatString E xs.length
        = S ++ (E ++ repeatString E xs.length) := String.append_assoc S E _
    rw [hassoc]
    rfl

theorem repeatString_length (s : String) :
    ∀ k, (repeatString s k).length = k * s.length := by
  intro k
  induction k with
  | zero => simp [repeatString]
  | succ n ih =>
    show (s ++ repeatString s n).length = (n + 1) * s.length
    rw [String.length_append, ih]
    ring

/-- Claim C4: for every `expansions` value `n`, the string built by
`expanded_contract` is the fixed prefix `CONTRACT_START`, then exactly
`n - 1` copies of the expansion fragment `"(block (nop))\n"` (the Rust loop
ranges over `1 .. expansions`), then the fixed suffix `CONTRACT_END`; and
for `n ≥ 1` it is not the string with `n` copies. -/
theorem expanded_contract_expansion_count (n : Nat) :
    expanded_contract_source n
        = CONTRACT_START ++ repeatString CONTRACT_EXPANSION (n - 1) ++ CONTRACT_END
      ∧ (1 ≤ n →
        expanded_contract_source n
          ≠ CONTRACT_START ++ repeatString CONTRACT_EXPANSION n ++ CONTRACT_END) := by
  constructor
  · show (rustRange 1 n).foldl (fun acc _ => acc ++ CONTRACT_EXPANSION) CONTRACT_START
        ++ CONTRACT_END
      = CONTRACT_START ++ repeatString CONTRACT_EXPANSION (n - 1) ++ CONTRACT_END
    rw [foldl_append_repeat, rustRange_length]
  · intro hn heq
    have h1 : expanded_contract_source n
        = CONTRACT_START ++ repeatString CONTRACT_EXPANSION (n - 1) ++ CONTRACT_END := by
      show (rustRange 1 n).foldl (fun acc _ => acc ++ CONTRACT_EXPANSION) CONTRACT_START
          ++ CONTRACT_END
        = CONTRACT_START ++ repeatString CONTRACT_EXPANSION (n - 1) ++ CONTRACT_END
      rw [foldl_append_repeat, rustRange_length]
    have hlen : (expanded_contract_source n).length
        = (CONTRACT_START ++ repeatString CONTRACT_EXPANSION n ++ CONTRACT_END).length := by
      rw [heq]
    rw [h1] at hlen
    simp only [String.length_append, repeatString_length] at hlen
    have hE : CONTRACT_EXPANSION.length = 14 := by decide
    rw [hE] at hlen
    omega

/-- Claim C4 witness: at `n = 3` the built string holds two expansion
copies, not three. -/
theorem expanded_contract_expansion_count_witness :
    expanded_contract_source 3
      ≠ CONTRACT_START ++ repeatString CONTRACT_EXPANSION 3 ++ CONTRACT_END :=
  (expanded_contract_expansion_count 3).2 (by decide)

/-- Claim C10: `expanded_contract` cannot distinguish the arguments `0` and
`1` — both build the contract with zero expansion copies, so the returned
`(binary, hash)` pairs coincide for every wat compiler and hash function;
and for every `n` the returned hash is the hash of the returned binary,
exactly as `compile_code` computes it. -/
theorem expanded_contract_zero_one_indistinguishable {H : Type}
    (watParse : String → List Nat) (hashFn : List Nat → H) :
    expanded_contract watParse hashFn 0 = expanded_contract watParse hashFn 1
      ∧ ∀ n : Nat,
          (expanded_contract watParse hashFn n).2
            = hashFn (expanded_contract watParse hashFn n).1 := by
  constructor
  · have hsrc : expanded_contract_source 0 = expanded_contract_source 1 := rfl
    show compile_code watParse hashFn (expanded_contract_source 0)
      = compile_code watParse hashFn (expanded_contract_source 1)
    rw [hsrc]
  · intro n
    rfl

/-! ## The `insert` subcommand (`insert.rs`)

`InsertCmd::run` reads a secret URI and an optional password, derives the
public key under the selected crypto scheme, validates the key-type tag,
and dispatches an `author_insertKey` JSON-RPC call.  The helpers it calls
that live outside this excerpt (`utils::read_uri`, the password reader,
`sp_core` key derivation, `sp_core::crypto::KeyTypeId`, the
`jsonrpc_core_client` transport) are modelled from the spec; the
orchestration in `insert.rs` itself is embedded from the source. -/

/-- The error type surfaced by `InsertCmd::run` (`crate::Error`); the
source uses `Error::Other` for the key-type message, the spec's taxonomy
additionally distinguishes input and crypto failures. -/
inductive CliError
  | other (msg : String)
  | input (msg : String)
  | crypto (msg : String)
deriving DecidableEq, Repr

/-- The spec's `ArgumentError` taxonomy entry, realised in the source as
`Error::Other` carrying the diagnostic message. -/
def ArgumentError (msg : String) : CliError := CliError.other msg

/-- The three crypto schemes selectable by `CryptoSchemeFlag`. -/
inductive CryptoScheme
  | ed25519
  | sr25519
  | ecdsa
deriving DecidableEq, Repr

/-- Modelled from the spec: the fixed public-key byte length of each
scheme — 32 for Ed25519, 32 for Sr25519, 33 for Ecdsa.  The `sp_core`
`Pair` implementations are not part of the excerpt. -/
def schemePublicLength : CryptoScheme → Nat
  | .ed25519 => 32
  | .sr25519 => 32
  | .ecdsa => 33

/-- Modelled from the spec: the raw public-key bytes derived from a secret
URI and optional password under a scheme.  The real key-derivation
function (`sp_core`) is absent from the excerpt; the model is an arbitrary
deterministic function of its inputs that returns exactly
`schemePublicLength` bytes, which is all the spec states about its
output shape. -/
def deriveBytes (scheme : CryptoScheme) (uri : String) (pass : Option String) : List Nat :=
  let seed := (uri.toList.map Char.toNat).sum + (pass.getD "").length
  (List.range (schemePublicLength scheme)).map (fun i => (seed + i) % 256)

/-- A key pair as exposed to `to_vec`: only the public-key bytes are
observed (`p.public().as_ref().to_vec()`). -/
structure KeyPair where
  publicBytes : List Nat
deriving DecidableEq, Repr

/-- Modelled from the spec: `utils::pair_from_suri::<P>` parses the secret
URI and derives a key pair, failing with a `CryptoError` on a malformed
URI (the model treats the empty URI as the malformed case). -/
def pair_from_suri (scheme : CryptoScheme) (uri : String) (pass : Option String) :
    Except CliError KeyPair :=
  if uri.isEmpty then
    Except.error (CliError.crypto "Invalid phrase")
  else
    Except.ok ⟨deriveBytes scheme uri pass⟩

/-- `to_vec::<P>` from `insert.rs`: derive the pair from the URI and return
its public-key bytes. -/
def to_vec (scheme : CryptoScheme) (uri : String) (pass : Option String) :
    Except CliError (List Nat) :=
  (pair_from_suri scheme uri pass).map (fun p => p.publicBytes)

/-- Modelled from the spec: `sp_core::crypto::KeyTypeId::try_from(&str)`
succeeds exactly on 4-character tags, yielding the four characters. -/
def keyTypeIdTryFrom (s : String) : Option (List Char) :=
  if s.length = 4 then some s.toList else none

/-- What the filesystem says about a path handed to `read_uri`. -/
inductive FileStatus
  | absent
  | unreadable
  | contents (text : String)

/-- The outcome the JSON-RPC transport produces for the one
`author_insertKey` call: connection failure, a JSON-RPC error response, or
a response whose `result` field is present (with its JSON value). -/
inductive RpcOutcome
  | transportFailure (msg : String)
  | rpcError (code : Int) (msg : String)
  | result (value : String)

/-- The external world of one `InsertCmd::run` invocation: the file system
and standard input seen by `read_uri`, the outcome of the password reader,
and the node's behaviour on the RPC call. -/
structure Env where
  file : String → FileStatus
  stdinTerminal : Bool
  promptedUri : Option String
  stdinLine : Option String
  passwordResult : Except CliError (Option String)
  rpcResponse : RpcOutcome

/-- Modelled from the spec: `utils::read_uri`.  A given argument naming a
readable file yields the file's trimmed contents; a given argument that is
no file path is returned verbatim; with no argument the URI is prompted
for on a terminal or read from standard input, and the reader fails with
an `InputError` when the file is unreadable or no input source exists. -/
def read_uri (env : Env) (arg : Option String) : Except CliError String :=
  match arg with
  | some s =>
    match env.file s with
    | .contents text => Except.ok text.trim
    | .unreadable => Except.error (CliError.input "the file exists but cannot be read")
    | .absent => Except.ok s
  | none =>
    if env.stdinTerminal then
      match env.promptedUri with
      | some line => Except.ok line
      | none => Except.error (CliError.input "no terminal for the URI prompt")
    else
      match env.stdinLine with
      | some line => Except.ok line
      | none => Except.error (CliError.input "no standard input for the URI")

/-- One JSON-RPC request as handed to the transport: the endpoint URL, the
method name, and the positional string parameters. -/
structure RpcRequest where
  url : String
  method : String
  params : List String
deriving DecidableEq, Repr

/-- Lowercase hexadecimal digit. -/
def hexChar (n : Nat) : Char :=
  if n < 10 then Char.ofNat (48 + n) else Char.ofNat (87 + n)

/-- One byte as two lowercase hex digits. -/
def byteToHex (b : Nat) : String :=
  String.mk [hexChar (b / 16 % 16), hexChar (b % 16)]

/-- Modelled from the spec: the serde serialisation of `sp_core::Bytes` —
`0x` followed by the lowercase hex of the bytes (even length). -/
def bytesToHex (bs : List Nat) : String :=
  bs.foldl (fun acc b => acc ++ byteToHex b) "0x"

/-- A string as a JSON string literal (the embedding does not need escape
sequences: URIs, key types and hex strings are plain text). -/
def jsonQuote (s : String) : String := "\"" ++ s ++ "\""

/-- Modelled from the spec: the literal JSON-RPC 2.0 request body the
transport posts for a request. -/
def requestBody (r : RpcRequest) : String :=
  "\x7b\"jsonrpc\":\"2.0\",\"id\":1,\"method\":" ++ jsonQuote r.method
    ++ ",\"params\":[" ++ String.intercalate "," (r.params.map jsonQuote) ++ "]\x7d"

/-- `insert_key::<H>` from `insert.rs`: connect to `url`, call
`author_insertKey(key_type, suri, public)`, discard a successful result
(`.map(|_| ())`), and on any error print `"Error inserting key: …"` with
`println!` — to standard output — and swallow it (`insert_key` returns
`()`).  The embedding returns the requests handed to the transport and the
stdout lines printed. -/
def insert_key (outcome : RpcOutcome) (url : String) (key_type : String) (suri : String)
    (public : List Nat) : List RpcRequest × List String :=
  let req : RpcRequest := ⟨url, "author_insertKey", [key_type, suri, bytesToHex public]⟩
  match outcome with
  | .transportFailure msg => ([req], ["Error inserting key: " ++ msg])
  | .rpcError code msg =>
      ([req], ["Error inserting key: Error " ++ toString code ++ ": " ++ msg])
  | .result _ => ([req], [])

/-- The CLI arguments of the `insert` command. -/
structure InsertCmd where
  suri : Option String
  key_type : String
  node_url : Option String
  scheme : CryptoScheme

/-- The five steps of `run`, in source order. -/
inductive Step
  | readUri
  | readPassword
  | derive
  | validate
  | dispatch
deriving DecidableEq, Repr

/-- The full linear order of `run`'s steps. -/
def allSteps : List Step :=
  [Step.readUri, Step.readPassword, Step.derive, Step.validate, Step.dispatch]

deriving instance DecidableEq for Except

/-- Everything one invocation of `run` produces: its `Result`, the RPC
requests handed to the transport, the stdout lines, and the trace of steps
that executed. -/
structure RunOutput where
  result : Except CliError Unit
  requests : List RpcRequest
  stdoutLines : List String
  steps : List Step
deriving DecidableEq, Repr

/-- `InsertCmd::run::<H>` from `insert.rs`: read the URI, read the
password, derive the public key under the selected scheme, check the
key-type tag (`KeyTypeId::try_from`, mapped to the `Error::Other`
diagnostic), then call `insert_key` — whose errors are printed and
swallowed — and return `Ok(())`. -/
def InsertCmd.run (cmd : InsertCmd) (env : Env) : RunOutput :=
  match read_uri env cmd.suri with
  | .error e => ⟨Except.error e, [], [], [Step.readUri]⟩
  | .ok suri =>
    match env.passwordResult with
    | .error e => ⟨Except.error e, [], [], [Step.readUri, Step.readPassword]⟩
    | .ok password =>
      match to_vec cmd.scheme suri password with
      | .error e => ⟨Except.error e, [], [], [Step.readUri, Step.readPassword, Step.derive]⟩
      | .ok public =>
        let node_url := cmd.node_url.getD "http://localhost:9933"
        match keyTypeIdTryFrom cmd.key_type with
        | none =>
          ⟨Except.error (ArgumentError
              "Cannot convert argument to keytype: argument should be 4-character string"),
            [], [], [Step.readUri, Step.readPassword, Step.derive, Step.validate]⟩
        | some _ =>
          let sent := insert_key env.rpcResponse node_url cmd.key_type suri public
          ⟨Except.ok (), sent.1, sent.2, allSteps⟩

/-! ## Theorems about the `insert` subcommand -/

theorem insert_key_requests (o : RpcOutcome) (url kt s : String) (pub : List Nat) :
    (insert_key o url kt s pub).1
      = [⟨url, "author_insertKey", [kt, s, bytesToHex pub]⟩] := by
  cases o <;> rfl

/-- The diagnostic message of the key-type validation failure. -/
def keytypeMsg : String :=
  "Cannot convert argument to keytype: argument should be 4-character string"

def c1cmd : InsertCmd := ⟨some "//Alice", "gran", none, CryptoScheme.sr25519⟩

def c1envRpcError : Env :=
  ⟨fun _ => FileStatus.absent, false, none, none, Except.ok none,
    RpcOutcome.rpcError (-32000) "BadKey"⟩

def c1envTransport : Env :=
  ⟨fun _ => FileStatus.absent, false, none, none, Except.ok none,
    RpcOutcome.transportFailure "connection refused"⟩

/-- Claim C1: on an RPC failure — a JSON-RPC error response or a
connection failure — `InsertCmd::run` nevertheless returns `Ok(())` (so
the process exits 0), and the diagnostic is printed with `println!` to
standard output, not standard error: the code contradicts the claimed
error surfacing at these concrete failing inputs. -/
theorem insert_run_swallows_rpc_error :
    ((c1cmd.run c1envRpcError).result = Except.ok ()
      ∧ (c1cmd.run c1envRpcError).stdoutLines
          = ["Error inserting key: Error -32000: BadKey"])
    ∧ ((c1cmd.run c1envTransport).result = Except.ok ()
      ∧ (c1cmd.run c1envTransport).stdoutLines
          = ["Error inserting key: connection refused"]) := by
  decide

def c2cmd : InsertCmd := ⟨none, "toolong", none, CryptoScheme.sr25519⟩

def c2env : Env :=
  ⟨fun _ => FileStatus.absent, false, none, none, Except.ok none, RpcOutcome.result "null"⟩

/-- Claim C2 counterexample: with `key_type = "toolong"` (length 7) but no
URI source at all, `run` fails while reading the URI — with an input
error, not with the `ArgumentError` the claim requires for every
invocation with a bad key type. -/
theorem keytype_argument_error_counterexample :
    c2cmd.key_type.length ≠ 4
      ∧ (c2cmd.run c2env).result ≠ Except.error (ArgumentError keytypeMsg)
      ∧ (c2cmd.run c2env).result
          = Except.error (CliError.input "no standard input for the URI") := by
  decide

theorem run_eq_readUri_error (cmd : InsertCmd) (env : Env) (e : CliError)
    (hu : read_uri env cmd.suri = Except.error e) :
    cmd.run env = ⟨Except.error e, [], [], [Step.readUri]⟩ := by
  unfold InsertCmd.run
  simp only [hu]

theorem run_eq_password_error (cmd : InsertCmd) (env : Env) (suri : String) (e : CliError)
    (hu : read_uri env cmd.suri = Except.ok suri)
    (hp : env.passwordResult = Except.error e) :
    cmd.run env = ⟨Except.error e, [], [], [Step.readUri, Step.readPassword]⟩ := by
  unfold InsertCmd.run
  simp only [hu, hp]

theorem run_eq_derive_error (cmd : InsertCmd) (env : Env) (suri : String)
    (pw : Option String) (e : CliError)
    (hu : read_uri env cmd.suri = Except.ok suri)
    (hp : env.passwordResult = Except.ok pw)
    (hv : to_vec cmd.scheme suri pw = Except.error e) :
    cmd.run env
      = ⟨Except.error e, [], [], [Step.readUri, Step.readPassword, Step.derive]⟩ := by
  unfold InsertCmd.run
  simp only [hu, hp, hv]

theorem run_eq_keytype_error (cmd : InsertCmd) (env : Env) (suri : String)
    (pw : Option String) (pub : List Nat)
    (hu : read_uri env cmd.suri = Except.ok suri)
    (hp : env.passwordResult = Except.ok pw)
    (hv : to_vec cmd.scheme suri pw = Except.ok pub)
    (hk : keyTypeIdTryFrom cmd.key_type = none) :
    cmd.run env
      = ⟨Except.error (ArgumentError keytypeMsg), [], [],
          [Step.readUri, Step.readPassword, Step.derive, Step.validate]⟩ := by
  unfold InsertCmd.run
  simp only [hu, hp, hv, hk]
  rfl

theorem run_eq_dispatch (cmd : InsertCmd) (env : Env) (suri : String)
    (pw : Option String) (pub : List Nat) (kt : List Char)
    (hu : read_uri env cmd.suri = Except.ok suri)
    (hp : env.passwordResult = Except.ok pw)
    (hv : to_vec cmd.scheme suri pw = Except.ok pub)
    (hk : keyTypeIdTryFrom cmd.key_type = some kt) :
    cmd.run env
      = ⟨Except.ok (),
          (insert_key env.rpcResponse (cmd.node_url.getD "http://localhost:9933")
            cmd.key_type suri pub).1,
          (insert_key env.rpcResponse (cmd.node_url.getD "http://localhost:9933")
            cmd.key_type suri pub).2,
          allSteps⟩ := by
  unfold InsertCmd.run
  simp only [hu, hp, hv, hk]

/-- Claim C2 (amended): whenever the `key_type` argument is not a
4-character string, `run` fails (never returns `Ok`) and no RPC request is
issued; and when the preceding steps — URI read, password read, key
derivation — all succeed, the failure is exactly
`ArgumentError("Cannot convert argument to keytype: argument should be
4-character string")`. -/
theorem keytype_invalid_no_request (cmd : InsertCmd) (env : Env)
    (hlen : cmd.key_type.length ≠ 4) :
    (cmd.run env).requests = []
      ∧ (cmd.run env).result.isOk = false
      ∧ ∀ s pw pub,
          read_uri env cmd.suri = Except.ok s
          → env.passwordResult = Except.ok pw
          → to_vec cmd.scheme s pw = Except.ok pub
          → (cmd.run env).result = Except.error (ArgumentError keytypeMsg) := by
  have hkt : keyTypeIdTryFrom cmd.key_type = none := by
    simp [keyTypeIdTryFrom, hlen]
  cases hu : read_uri env cmd.suri with
  | error e =>
    rw [run_eq_readUri_error cmd env e hu]
    refine ⟨rfl, rfl, ?_⟩
    intro s pw pub hs _ _
    simp at hs
  | ok suri =>
    cases hp : env.passwordResult with
    | error e =>
      rw [run_eq_password_error cmd env suri e hu hp]
      refine ⟨rfl, rfl, ?_⟩
      intro s pw pub _ hp2 _
      simp at hp2
    | ok password =>
      cases hv : to_vec cmd.scheme suri password with
      | error e =>
        rw [run_eq_derive_error cmd env suri password e hu hp hv]
        refine ⟨rfl, rfl, ?_⟩
        intro s pw pub hs hp2 hv2
        injection hs with hs1
        injection hp2 with hp1
        subst hs1
        subst hp1
        rw [hv] at hv2
        simp at hv2
      | ok public =>
        rw [run_eq_keytype_error cmd env suri password public hu hp hv hkt]
        exact ⟨rfl, rfl, fun _ _ _ _ _ _ => rfl⟩

def c2wcmd : InsertCmd := ⟨some "//Alice", "toolong", none, CryptoScheme.sr25519⟩

/-- Claim C2 witness: the amended statement at a concrete invocation whose
first three steps succeed. -/
theorem keytype_invalid_no_request_witness :
    (c2wcmd.run c2env).requests = []
      ∧ (c2wcmd.run c2env).result = Except.error (ArgumentError keytypeMsg) := by
  have h := keytype_invalid_no_request c2wcmd c2env (by decide)
  exact ⟨h.1, h.2.2 "//Alice" none (deriveBytes CryptoScheme.sr25519 "//Alice" none)
    (by decide) rfl (by decide)⟩

/-- Claim C3: a successful `run` hands exactly one request to the RPC
transport — method `author_insertKey`, positional parameters
`[key_type, suri, 0x-prefixed hex of the derived public key]` — and the
`suri` parameter is byte-for-byte the string the URI reader produced. -/
theorem run_success_single_request (cmd : InsertCmd) (env : Env)
    (s : String) (pw : Option String) (pub : List Nat)
    (hs : read_uri env cmd.suri = Except.ok s)
    (hp : env.passwordResult = Except.ok pw)
    (hv : to_vec cmd.scheme s pw = Except.ok pub)
    (hok : (cmd.run env).result.isOk = true) :
    (cmd.run env).requests
      = [⟨cmd.node_url.getD "http://localhost:9933", "author_insertKey",
          [cmd.key_type, s, bytesToHex pub]⟩] := by
  cases hk : keyTypeIdTryFrom cmd.key_type with
  | none =>
    rw [run_eq_keytype_error cmd env s pw pub hs hp hv hk] at hok
    exact Bool.noConfusion hok
  | some kt =>
    rw [run_eq_dispatch cmd env s pw pub kt hs hp hv hk]
    exact insert_key_requests env.rpcResponse _ cmd.key_type s pub

def c3cmd : InsertCmd := ⟨some "//Alice", "gran", none, CryptoScheme.sr25519⟩

def c3env : Env :=
  ⟨fun _ => FileStatus.absent, false, none, none, Except.ok none, RpcOutcome.result "true"⟩

def c3pub : List Nat := deriveBytes CryptoScheme.sr25519 "//Alice" none

/-- Claim C3 witness: a concrete successful invocation issues the single
expected request. -/
theorem run_success_single_request_witness :
    (c3cmd.run c3env).requests
      = [⟨"http://localhost:9933", "author_insertKey",
          ["gran", "//Alice", bytesToHex c3pub]⟩] :=
  run_success_single_request c3cmd c3env "//Alice" none c3pub
    (by decide) rfl (by decide) (by decide)

theorem deriveBytes_length (scheme : CryptoScheme) (uri : String) (pass : Option String) :
    (deriveBytes scheme uri pass).length = schemePublicLength scheme := by
  simp [deriveBytes]

theorem to_vec_ok (scheme : CryptoScheme) (uri : String) (pass : Option String)
    (pub : List Nat) (h : to_vec scheme uri pass = Except.ok pub) :
    pub = deriveBytes scheme uri pass := by
  unfold to_vec pair_from_suri at h
  by_cases he : uri.isEmpty
  · simp [he, Except.map] at h
  · simp only [he, if_false, Bool.false_eq_true, ite_false, Except.map] at h
    injection h with h1
    exact h1.symm

/-- Claim C5: whenever key derivation under scheme `S` succeeds, the
public-key byte sequence returned by `to_vec` has the fixed length of
`S` — 32 bytes for Ed25519, 32 for Sr25519, 33 for Ecdsa. -/
theorem to_vec_public_length (scheme : CryptoScheme) (uri : String) (pass : Option String)
    (pub : List Nat) (h : to_vec scheme uri pass = Except.ok pub) :
    pub.length = schemePublicLength scheme
      ∧ schemePublicLength CryptoScheme.ed25519 = 32
      ∧ schemePublicLength CryptoScheme.sr25519 = 32
      ∧ schemePublicLength CryptoScheme.ecdsa = 33 := by
  refine ⟨?_, rfl, rfl, rfl⟩
  rw [to_vec_ok scheme uri pass pub h]
  exact deriveBytes_length scheme uri pass

def c5pub : List Nat := deriveBytes CryptoScheme.ecdsa "//Alice" none

/-- Claim C5 witness: a concrete Ecdsa derivation yields 33 bytes. -/
theorem to_vec_public_length_witness : c5pub.length = 33 :=
  (to_vec_public_length CryptoScheme.ecdsa "//Alice" none c5pub (by decide)).1

/-- Claim C6: every request `run` hands to the transport is addressed to
`node_url` when the flag is given and to `http://localhost:9933` when it
is absent; and a successful `run` does issue a request. -/
theorem run_node_url_default (cmd : InsertCmd) (env : Env) :
    (∀ r ∈ (cmd.run env).requests, r.url = cmd.node_url.getD "http://localhost:9933")
      ∧ ((cmd.run env).result.isOk = true → (cmd.run env).requests ≠ []) := by
  cases hu : read_uri env cmd.suri with
  | error e =>
    rw [run_eq_readUri_error cmd env e hu]
    exact ⟨fun r hr => absurd hr (List.not_mem_nil r), fun h => Bool.noConfusion h⟩
  | ok suri =>
    cases hp : env.passwordResult with
    | error e =>
      rw [run_eq_password_error cmd env suri e hu hp]
      exact ⟨fun r hr => absurd hr (List.not_mem_nil r), fun h => Bool.noConfusion h⟩
    | ok pw =>
      cases hv : to_vec cmd.scheme suri pw with
      | error e =>
        rw [run_eq_derive_error cmd env suri pw e hu hp hv]
        exact ⟨fun r hr => absurd hr (List.not_mem_nil r), fun h => Bool.noConfusion h⟩
      | ok pub =>
        cases hk : keyTypeIdTryFrom cmd.key_type with
        | none =>
          rw [run_eq_keytype_error cmd env suri pw pub hu hp hv hk]
          exact ⟨fun r hr => absurd hr (List.not_mem_nil r), fun h => Bool.noConfusion h⟩
        | some kt =>
          rw [run_eq_dispatch cmd env suri pw pub kt hu hp hv hk]
          constructor
          · intro r hr
            rw [show (⟨Except.ok (),
                (insert_key env.rpcResponse (cmd.node_url.getD "http://localhost:9933")
                  cmd.key_type suri pub).1,
                (insert_key env.rpcResponse (cmd.node_url.getD "http://localhost:9933")
                  cmd.key_type suri pub).2, allSteps⟩ : RunOutput).requests
              = (insert_key env.rpcResponse (cmd.node_url.getD "http://localhost:9933")
                  cmd.key_type suri pub).1 from rfl,
              insert_key_requests] at hr
            rw [List.mem_singleton] at hr
            subst hr
            rfl
          · intro _
            rw [show (⟨Except.ok (),
                (insert_key env.rpcResponse (cmd.node_url.getD "http://localhost:9933")
                  cmd.key_type suri pub).1,
                (insert_key env.rpcResponse (cmd.node_url.getD "http://localhost:9933")
                  cmd.key_type suri pub).2, allSteps⟩ : RunOutput).requests
              = (insert_key env.rpcResponse (cmd.node_url.getD "http://localhost:9933")
                  cmd.key_type suri pub).1 from rfl,
              insert_key_requests]
            simp

def c6cmd : InsertCmd := ⟨some "//Bob", "babe", none, CryptoScheme.ed25519⟩

def c6env : Env :=
  ⟨fun _ => FileStatus.absent, false, none, none, Except.ok none, RpcOutcome.result "true"⟩

def c6pub : List Nat := deriveBytes CryptoScheme.ed25519 "//Bob" none

/-- Claim C6 witness: with `--node-url` absent, the concrete request goes
to the default endpoint. -/
theorem run_node_url_default_witness :
    (c6cmd.run c6env).requests ≠ []
      ∧ (RpcRequest.mk "http://localhost:9933" "author_insertKey"
          ["babe", "//Bob", bytesToHex c6pub]).url = "http://localhost:9933" :=
  ⟨(run_node_url_default c6cmd c6env).2 (by decide),
    (run_node_url_default c6cmd c6env).1 _ (by decide)⟩

/-- Claim C7: whenever the node's response carries a `result` field —
whatever its value — the call is treated as successful: `run` returns
`Ok(())` and nothing is printed. -/
theorem rpc_result_accepted (cmd : InsertCmd) (env : Env) (v : String)
    (hr : env.rpcResponse = RpcOutcome.result v)
    (hreq : (cmd.run env).requests ≠ []) :
    (cmd.run env).result = Except.ok () ∧ (cmd.run env).stdoutLines = [] := by
  cases hu : read_uri env cmd.suri with
  | error e =>
    rw [run_eq_readUri_error cmd env e hu] at hreq
    exact absurd rfl hreq
  | ok suri =>
    cases hp : env.passwordResult with
    | error e =>
      rw [run_eq_password_error cmd env suri e hu hp] at hreq
      exact absurd rfl hreq
    | ok pw =>
      cases hv : to_vec cmd.scheme suri pw with
      | error e =>
        rw [run_eq_derive_error cmd env suri pw e hu hp hv] at hreq
        exact absurd rfl hreq
      | ok pub =>
        cases hk : keyTypeIdTryFrom cmd.key_type with
        | none =>
          rw [run_eq_keytype_error cmd env suri pw pub hu hp hv hk] at hreq
          exact absurd rfl hreq
        | some kt =>
          rw [run_eq_dispatch cmd env suri pw pub kt hu hp hv hk, hr]
          exact ⟨rfl, rfl⟩

def c7cmd : InsertCmd := ⟨some "//Ferdie", "audi", none, CryptoScheme.sr25519⟩

def c7env : Env :=
  ⟨fun _ => FileStatus.absent, false, none, none, Except.ok none,
    RpcOutcome.result "\"accepted\""⟩

/-- Claim C7 witness: a concrete response with a `result` field yields
`Ok(())` and silence. -/
theorem rpc_result_accepted_witness :
    (c7cmd.run c7env).result = Except.ok () ∧ (c7cmd.run c7env).stdoutLines = [] :=
  rpc_result_accepted c7cmd c7env "\"accepted\"" rfl (by decide)

theorem runOutput_failed_props (res : Except CliError Unit) (L : List Step)
    (hres : res.isOk = false) (hpre : L <+: allSteps) (hne : L ≠ allSteps)
    (hnd : Step.dispatch ∉ L) :
    (⟨res, [], [], L⟩ : RunOutput).steps <+: allSteps
      ∧ ((⟨res, [], [], L⟩ : RunOutput).result.isOk = true
          ↔ (⟨res, [], [], L⟩ : RunOutput).steps = allSteps)
      ∧ ((⟨res, [], [], L⟩ : RunOutput).result.isOk = false
          → Step.dispatch ∉ (⟨res, [], [], L⟩ : RunOutput).steps
            ∧ (⟨res, [], [], L⟩ : RunOutput).requests = []) := by
  refine ⟨hpre, ⟨fun h => ?_, fun h => absurd h hne⟩, fun _ => ⟨hnd, rfl⟩⟩
  rw [hres] at h
  exact Bool.noConfusion h

/-- Claim C8: `run` executes read-URI, read-password, derive-public-key,
validate-key-type, dispatch-RPC in that linear order: the executed trace
is always a prefix of that order, `run` returns `Ok` exactly when all five
steps ran, and after any failure no later step — in particular no network
dispatch — executes. -/
theorem run_linear_step_order (cmd : InsertCmd) (env : Env) :
    (cmd.run env).steps <+: allSteps
      ∧ ((cmd.run env).result.isOk = true ↔ (cmd.run env).steps = allSteps)
      ∧ ((cmd.run env).result.isOk = false
          → Step.dispatch ∉ (cmd.run env).steps ∧ (cmd.run env).requests = []) := by
  cases hu : read_uri env cmd.suri with
  | error e =>
    rw [run_eq_readUri_error cmd env e hu]
    exact runOutput_failed_props _ _ rfl (by decide) (by decide) (by decide)
  | ok suri =>
    cases hp : env.passwordResult with
    | error e =>
      rw [run_eq_password_error cmd env suri e hu hp]
      exact runOutput_failed_props _ _ rfl (by decide) (by decide) (by decide)
    | ok pw =>
      cases hv : to_vec cmd.scheme suri pw with
      | error e =>
        rw [run_eq_derive_error cmd env suri pw e hu hp hv]
        exact runOutput_failed_props _ _ rfl (by decide) (by decide) (by decide)
      | ok pub =>
        cases hk : keyTypeIdTryFrom cmd.key_type with
        | none =>
          rw [run_eq_keytype_error cmd env suri pw pub hu hp hv hk]
          exact runOutput_failed_props _ _ rfl (by decide) (by decide) (by decide)
        | some kt =>
          rw [run_eq_dispatch cmd env suri pw pub kt hu hp hv hk]
          refine ⟨?_, ⟨fun _ => rfl, fun _ => rfl⟩, fun h => Bool.noConfusion h⟩
          show allSteps <+: allSteps
          decide

def c8cmd : InsertCmd := ⟨none, "gran", none, CryptoScheme.sr25519⟩

def c8env : Env :=
  ⟨fun _ => FileStatus.absent, false, none, none, Except.ok none, RpcOutcome.result "true"⟩

/-- Claim C8 witness: with no URI source at all, `run` fails at the first
step, never dispatches, and issues no request. -/
theorem run_linear_step_order_witness :
    Step.dispatch ∉ (c8cmd.run c8env).steps ∧ (c8cmd.run c8env).requests = [] :=
  (run_linear_step_order c8cmd c8env).2.2 (by decide)

theorem run_requests_rpc_independent (cmd : InsertCmd)
    (f : String → FileStatus) (t : Bool) (p l : Option String)
    (pw : Except CliError (Option String)) (r r' : RpcOutcome) :
    (cmd.run ⟨f, t, p, l, pw, r⟩).requests
      = (cmd.run ⟨f, t, p, l, pw, r'⟩).requests := by
  have hru : read_uri ⟨f, t, p, l, pw, r'⟩ cmd.suri
      = read_uri ⟨f, t, p, l, pw, r⟩ cmd.suri := rfl
  cases hu : read_uri ⟨f, t, p, l, pw, r⟩ cmd.suri with
  | error e =>
    rw [run_eq_readUri_error cmd _ e hu, run_eq_readUri_error cmd _ e (hru.trans hu)]
  | ok suri =>
    cases hpw : pw with
    | error e =>
      rw [hpw] at hu hru
      rw [run_eq_password_error cmd _ suri e hu rfl,
          run_eq_password_error cmd _ suri e (hru.trans hu) rfl]
    | ok password =>
      rw [hpw] at hu hru
      cases hv : to_vec cmd.scheme suri password with
      | error e =>
        rw [run_eq_derive_error cmd _ suri password e hu rfl hv,
            run_eq_derive_error cmd _ suri password e (hru.trans hu) rfl hv]
      | ok pub =>
        cases hk : keyTypeIdTryFrom cmd.key_type with
        | none =>
          rw [run_eq_keytype_error cmd _ suri password pub hu rfl hv hk,
              run_eq_keytype_error cmd _ suri password pub (hru.trans hu) rfl hv hk]
        | some kt =>
          rw [run_eq_dispatch cmd _ suri password pub kt hu rfl hv hk,
              run_eq_dispatch cmd _ suri password pub kt (hru.trans hu) rfl hv hk]
          simp only [insert_key_requests]

/-- Claim C9: `run` is deterministic at the wire level — two invocations
with the same CLI arguments and the same non-interactive inputs (file
system, standard input, prompt, password source) hand byte-for-byte
identical request bodies to the transport, whatever the node then
answers. -/
theorem run_request_body_deterministic (cmd : InsertCmd) (e1 e2 : Env)
    (hf : e1.file = e2.file) (ht : e1.stdinTerminal = e2.stdinTerminal)
    (hp : e1.promptedUri = e2.promptedUri) (hl : e1.stdinLine = e2.stdinLine)
    (hpw : e1.passwordResult = e2.passwordResult) :
    (cmd.run e1).requests.map requestBody
      = (cmd.run e2).requests.map requestBody := by
  obtain ⟨f1, t1, p1, l1, pw1, r1⟩ := e1
  obtain ⟨f2, t2, p2, l2, pw2, r2⟩ := e2
  simp only at hf ht hp hl hpw
  subst hf ht hp hl hpw
  rw [run_requests_rpc_independent cmd f1 t1 p1 l1 pw1 r1 r2]

def c9cmd : InsertCmd := ⟨some "//Eve", "imon", none, CryptoScheme.ecdsa⟩

def c9env1 : Env :=
  ⟨fun _ => FileStatus.absent, false, none, none, Except.ok none, RpcOutcome.result "true"⟩

def c9env2 : Env :=
  ⟨fun _ => FileStatus.absent, false, none, none, Except.ok none,
    RpcOutcome.rpcError (-32000) "rejected"⟩

/-- Claim C9 witness: two concrete invocations with identical inputs but
different node behaviour produce identical request bodies. -/
theorem run_request_body_deterministic_witness :
    (c9cmd.run c9env1).requests.map requestBody
      = (c9cmd.run c9env2).requests.map requestBody :=
  run_request_body_deterministic c9cmd c9env1 c9env2 rfl rfl rfl rfl rfl
